import Mathlib

/-!
Verification development for the quadrotor flight controller in
`src/examples/fly/fly.c`.

The C program's floats are modelled as rationals (`ℚ`); the libm `cos`
function is an explicit parameter `rcos : ℚ → ℚ` of the control-loop
embedding, since its exact value is external to the program.  The
per-cycle hardware interrupt routine `flight_core`, the arming sequence
`wait_for_arming_sequence` and the radio watcher `DSM2_watcher` are
embedded as pure step functions over explicit state.
-/

/-! ### Constants (fly.c lines 44-61) -/

/-- fly.c: `#define DT .005` (control timestep, 200 Hz). -/
def DT : ℚ := 5/1000

/-- fly.c: `#define MAX_YAW_COMPONENT 0.21`. -/
def MAX_YAW_COMPONENT : ℚ := 21/100

/-- fly.c: `#define MAX_THRUST_COMPONENT 0.8`. -/
def MAX_THRUST_COMPONENT : ℚ := 8/10

/-- fly.c: `#define MAX_ROLL_COMPONENT 0.2`. -/
def MAX_ROLL_COMPONENT : ℚ := 2/10

/-- fly.c: `#define MAX_PITCH_COMPONENT 0.2`. -/
def MAX_PITCH_COMPONENT : ℚ := 2/10

/-- fly.c: `#define INT_CUTOFF_TH 0.3`. -/
def INT_CUTOFF_TH : ℚ := 3/10

/-- fly.c: `#define YAW_CUTOFF_TH 0.1`. -/
def YAW_CUTOFF_TH : ℚ := 1/10

/-- fly.c: `#define ARM_TIP_THRESHOLD 0.2`. -/
def ARM_TIP_THRESHOLD : ℚ := 2/10

/-- fly.c: `#define LAND_SATURATION 0.05`. -/
def LAND_SATURATION : ℚ := 5/100

/-- fly.c: `#define TIP_THRESHOLD 1.5`. -/
def TIP_THRESHOLD : ℚ := 3/2

/-- fly.c: `#define DSM2_LAND_TIMEOUT 0.3`. -/
def DSM2_LAND_TIMEOUT : ℚ := 3/10

/-- fly.c: `#define DSM2_DISARM_TIMEOUT 5.0`. -/
def DSM2_DISARM_TIMEOUT : ℚ := 5

/-- fly.c: `#define EMERGENCY_LAND_THR 0.15`. -/
def EMERGENCY_LAND_THR : ℚ := 15/100

/-- Modelled from the spec: `PI` comes from `robotics_cape.h`, which is not
under `src/`; it is the single-float value of pi, here as an exact rational. -/
def PI : ℚ := 314159265358979/100000000000000

/-- Modelled from the spec: `GYRO_FSR` (gyro full-scale range, deg/s) comes
from `robotics_cape.h`, which is not under `src/`.  Its value does not affect
any claim; the conversion shape is what fly.c uses. -/
def GYRO_FSR : ℚ := 1000

/-- Modelled from the spec: `DEGREE_TO_RAD` from `robotics_cape.h` (missing
from `src/`), pi/180. -/
def DEGREE_TO_RAD : ℚ := PI / 180

/-- fly.c lines 343-345: raw gyro counts are scaled by
`GYRO_FSR * DEGREE_TO_RAD / 32767.0`. -/
def GYRO_SCALE : ℚ := GYRO_FSR * DEGREE_TO_RAD / 32767

/-! ### Enumerations (fly.c lines 96-126) -/

/-- fly.c `flight_mode_t`: what the pilot wants. -/
inductive flight_mode_t where
  | EMERGENCY_KILL
  | EMERGENCY_LAND
  | USER_ATTITUDE
  | USER_LOITER
  | USER_POSITION_CARTESIAN
  | USER_POSITION_RADIAL
  | TARGET_HOLD
deriving DecidableEq

export flight_mode_t (EMERGENCY_KILL EMERGENCY_LAND USER_ATTITUDE USER_LOITER USER_POSITION_CARTESIAN USER_POSITION_RADIAL TARGET_HOLD)

/-- fly.c `core_mode_t`: what the core is actually doing. -/
inductive core_mode_t where
  | DISARMED
  | ATTITUDE
  | POSITION
deriving DecidableEq

export core_mode_t (DISARMED ATTITUDE POSITION)

/-! ### Discrete PID filter (spec-modelled) -/

/-- Modelled from the spec: the discrete PID filter lives in `filter_lib.h`,
which is not under `src/`.  Spec 4.1: a P + I + D controller with a
first-order derivative filter at time-constant tau and fixed sample period
DT; it carries last input, last output and a saturation (anti-windup) flag. -/
structure discrete_filter where
  kp : ℚ
  ki : ℚ
  kd : ℚ
  tau : ℚ
  dt : ℚ
  last_input : ℚ
  integrator : ℚ
  deriv_state : ℚ
  current_output : ℚ
  saturated : Bool
deriving DecidableEq

/-- Modelled from the spec (4.1): `generate(kp, ki, kd, tau, DT)` returns a
filter with cleared history. -/
def generatePID (kp ki kd tau dt : ℚ) : discrete_filter :=
  { kp := kp, ki := ki, kd := kd, tau := tau, dt := dt,
    last_input := 0, integrator := 0, deriv_state := 0,
    current_output := 0, saturated := false }

/-- Modelled from the spec (4.1): `zero()` clears all history including
`current_output`. -/
def zeroFilter (fl : discrete_filter) : discrete_filter :=
  { fl with
    last_input := 0, integrator := 0, deriv_state := 0,
    current_output := 0, saturated := false }

/-- Modelled from the spec (4.1): `march(e)` advances one step and stores the
new output in `current_output`.  The integrator is frozen while the previous
saturation clamp was active (anti-windup). -/
def marchFilter (fl : discrete_filter) (e : ℚ) : discrete_filter :=
  let integ := if fl.saturated then fl.integrator else fl.integrator + fl.dt * e
  let deriv := (fl.tau * fl.deriv_state + (e - fl.last_input)) / (fl.tau + fl.dt)
  { fl with
    last_input := e, integrator := integ, deriv_state := deriv,
    current_output := fl.kp * e + fl.ki * integ + fl.kd * deriv,
    saturated := false }

/-- Modelled from the spec (4.1): `saturate(lo, hi)` clamps `current_output`
in place and records that a bound was active. -/
def saturateFilter (fl : discrete_filter) (lo hi : ℚ) : discrete_filter :=
  if fl.current_output > hi then { fl with current_output := hi, saturated := true }
  else if fl.current_output < lo then { fl with current_output := lo, saturated := true }
  else fl

/-- All history of the filter is zero (the spec's "filter state is zero"). -/
def filterStateZero (fl : discrete_filter) : Prop :=
  fl.last_input = 0 ∧ fl.integrator = 0 ∧ fl.deriv_state = 0 ∧
  fl.current_output = 0 ∧ fl.saturated = false

instance filterStateZero_dec (fl : discrete_filter) : Decidable (filterStateZero fl) := by
  unfold filterStateZero
  exact inferInstance

/-! ### Data model (fly.c lines 134-230) -/

/-- Four-component float array (`u[4]`, `esc[4]`). -/
structure Vec4 where
  x0 : ℚ
  x1 : ℚ
  x2 : ℚ
  x3 : ℚ
deriving DecidableEq

/-- The all-zero vector (`memset(...,0,16)`). -/
def Vec4.zero : Vec4 := ⟨0, 0, 0, 0⟩

/-- fly.c `core_setpoint_t`. -/
structure core_setpoint_t where
  core_mode : core_mode_t
  throttle : ℚ
  roll : ℚ
  pitch : ℚ
  yaw_rate : ℚ
  altitude : ℚ
  position_X : ℚ
  position_Y : ℚ
  yaw : ℚ
deriving DecidableEq

/-- fly.c `core_state_t` (fields the control loop reads or writes). -/
structure core_state_t where
  control_loops : ℕ
  roll : ℚ
  pitch : ℚ
  yaw : ℚ
  last_yaw : ℚ
  dRoll : ℚ
  dPitch : ℚ
  dYaw : ℚ
  dRoll_err : ℚ
  dPitch_err : ℚ
  yaw_err : ℚ
  roll_ctrl : discrete_filter
  pitch_ctrl : discrete_filter
  yaw_ctrl : discrete_filter
  dRoll_err_integrator : ℚ
  dPitch_err_integrator : ℚ
  yaw_err_integrator : ℚ
  imu_roll_err : ℚ
  imu_pitch_err : ℚ
  control_u : Vec4
  esc_out : Vec4
  num_yaw_spins : ℤ
  imu_yaw_on_takeoff : ℚ
deriving DecidableEq

/-- fly.c `user_interface_t`. -/
structure user_interface_t where
  flight_mode : flight_mode_t
  throttle_stick : ℚ
  yaw_stick : ℚ
  roll_stick : ℚ
  pitch_stick : ℚ
  kill_switch : ℤ
deriving DecidableEq

/-- Modelled from the spec: `core_config_t` lives in
`flight_core_config.h`, which is not under `src/`.  Fields are exactly the
gains and limits fly.c reads (spec 3, Config). -/
structure core_config_t where
  Droll_KP : ℚ
  Droll_KI : ℚ
  Droll_KD : ℚ
  Dpitch_KP : ℚ
  Dpitch_KI : ℚ
  Dpitch_KD : ℚ
  yaw_KP : ℚ
  yaw_KI : ℚ
  yaw_KD : ℚ
  idle_speed : ℚ
  max_roll_setpoint : ℚ
  max_pitch_setpoint : ℚ
  max_yaw_rate : ℚ
  roll_rate_per_rad : ℚ
  pitch_rate_per_rad : ℚ
deriving DecidableEq

/-- One fresh IMU sample (fused Euler angles and raw gyro counts). -/
structure MpuSample where
  fusedEuler_X : ℚ
  fusedEuler_Y : ℚ
  fusedEuler_Z : ℚ
  rawGyro_X : ℚ
  rawGyro_Y : ℚ
  rawGyro_Z : ℚ
deriving DecidableEq

/-! ### Attitude core pieces (fly.c `flight_core`, lines 307-587) -/

/-- fly.c line 336: `core_state.roll = -(mpu.fusedEuler[VEC3_Y] - imu_roll_err)`. -/
def sensed_roll (st : core_state_t) (m : MpuSample) : ℚ :=
  -(m.fusedEuler_Y - st.imu_roll_err)

/-- fly.c line 337: `core_state.pitch = mpu.fusedEuler[VEC3_X] - imu_pitch_err`. -/
def sensed_pitch (st : core_state_t) (m : MpuSample) : ℚ :=
  m.fusedEuler_X - st.imu_pitch_err

/-- fly.c lines 354-368: the yaw unwrap.  `new_yaw` is compared against the
stale `last_yaw` field; the spin count is adjusted across the crossover at
Z = +-PI and the yaw recomputed with the updated count.  Returns the new
spin count and the new yaw. -/
def yaw_unwrap (takeoff : ℚ) (spins : ℤ) (last_yaw : ℚ) (fusedZ : ℚ) : ℤ × ℚ :=
  let new_yaw : ℚ := -(fusedZ - takeoff) + (spins : ℚ) * (2 * PI)
  let spins2 : ℤ :=
    if new_yaw - last_yaw > 6 then spins - 1
    else if new_yaw - last_yaw < -6 then spins + 1
    else spins
  (spins2, -(fusedZ - takeoff) + (spins2 : ℚ) * (2 * PI))

/-- fly.c lines 426-432: tilt-compensated throttle channel
`u[0] = (1/cos(roll)) * (1/cos(pitch)) * (throttle*(MAX_THRUST-idle)+idle)`. -/
def u0_of (rcos : ℚ → ℚ) (idle : ℚ) (throttle roll pitch : ℚ) : ℚ :=
  (1 / rcos roll) * (1 / rcos pitch) *
    (throttle * (MAX_THRUST_COMPONENT - idle) + idle)

/-- fly.c lines 513-531: find the largest output (the loop seeds its scan
with 0; the `smallest_value` scan of the C code is dead and omitted) and, if
it exceeds 1, subtract the excess evenly from all four channels. -/
def headroom (e : Vec4) : Vec4 :=
  let largest_value := max (max (max (max 0 e.x0) e.x1) e.x2) e.x3
  if largest_value > 1 then
    ⟨e.x0 - (largest_value - 1), e.x1 - (largest_value - 1),
     e.x2 - (largest_value - 1), e.x3 - (largest_value - 1)⟩
  else e

/-- The largest of the four mixed outputs (the "maximum entry"). -/
def esc_max (e : Vec4) : ℚ := max (max e.x0 e.x1) (max e.x2 e.x3)

/-- fly.c lines 549-554: per-channel output clamp to [0,1]. -/
def clamp01 (x : ℚ) : ℚ :=
  if x > 1 then 1 else if x < 0 then 0 else x

/-- Result of one `flight_core` invocation with fresh IMU data: the new
setpoint record, the new core state, the remembered previous mode, and the
normalized servo pulses sent (channel, value) in order. -/
structure CoreStep where
  setpoint : core_setpoint_t
  state : core_state_t
  previous_core_mode : core_mode_t
  pulses : List (ℕ × ℚ)

/-- fly.c lines 307-587: one control cycle with new IMU data.  `rcos`
abstracts libm `cos`; `prev` is the static `previous_core_mode`. -/
def flight_core (rcos : ℚ → ℚ) (cfg : core_config_t) (sp : core_setpoint_t)
    (st : core_state_t) (prev : core_mode_t) (m : MpuSample) : CoreStep :=
  let roll := sensed_roll st m
  let pitch := sensed_pitch st m
  let dRoll := m.rawGyro_Y * GYRO_SCALE
  let dPitch := m.rawGyro_X * GYRO_SCALE
  let dYaw := m.rawGyro_Z * GYRO_SCALE
  let spins0 : ℤ :=
    if prev = DISARMED ∧ ¬(sp.core_mode = DISARMED) then 0 else st.num_yaw_spins
  let takeoff : ℚ :=
    if prev = DISARMED ∧ ¬(sp.core_mode = DISARMED) then m.fusedEuler_Z
    else st.imu_yaw_on_takeoff
  let yu := yaw_unwrap takeoff spins0 st.last_yaw m.fusedEuler_Z
  let st1 : core_state_t :=
    { st with
      roll := roll, pitch := pitch, dRoll := dRoll, dPitch := dPitch,
      dYaw := dYaw, num_yaw_spins := yu.1, imu_yaw_on_takeoff := takeoff,
      last_yaw := st.yaw, yaw := yu.2 }
  if sp.core_mode = DISARMED then
    { setpoint := { sp with yaw := 0 },
      state := { st1 with
        dRoll_err_integrator := 0, dPitch_err_integrator := 0,
        yaw_err_integrator := 0,
        roll_ctrl := zeroFilter st1.roll_ctrl,
        pitch_ctrl := zeroFilter st1.pitch_ctrl,
        esc_out := Vec4.zero },
      previous_core_mode := DISARMED,
      pulses := [] }
  else
    let sp1 :=
      if sp.core_mode = ATTITUDE ∧ sp.throttle > YAW_CUTOFF_TH then
        { sp with yaw := sp.yaw + DT * sp.yaw_rate }
      else sp
    let u0 := u0_of rcos cfg.idle_speed sp1.throttle roll pitch
    let dRoll_setpoint := (sp1.roll - roll) * cfg.roll_rate_per_rad
    let dPitch_setpoint := (sp1.pitch - pitch) * cfg.pitch_rate_per_rad
    let dRoll_err := dRoll_setpoint - dRoll
    let dPitch_err := dPitch_setpoint - dPitch
    let ri :=
      if u0 > INT_CUTOFF_TH then st1.dRoll_err_integrator + dRoll_err * DT
      else st1.dRoll_err_integrator
    let pInt :=
      if u0 > INT_CUTOFF_TH then st1.dPitch_err_integrator + dPitch_err * DT
      else st1.dPitch_err_integrator
    let rc1 := marchFilter st1.roll_ctrl dRoll_err
    let pc1 := marchFilter st1.pitch_ctrl dPitch_err
    let rc2 :=
      if sp1.throttle < 1/10 then
        saturateFilter rc1 (-LAND_SATURATION) LAND_SATURATION
      else saturateFilter rc1 (-MAX_ROLL_COMPONENT) MAX_ROLL_COMPONENT
    let pc2 :=
      if sp1.throttle < 1/10 then
        saturateFilter pc1 (-LAND_SATURATION) LAND_SATURATION
      else saturateFilter pc1 (-MAX_PITCH_COMPONENT) MAX_PITCH_COMPONENT
    let u1 := rc2.current_output
    let u2 := pc2.current_output
    let yaw_err := sp1.yaw - yu.2
    let yi :=
      if u0 > INT_CUTOFF_TH then st1.yaw_err_integrator + yaw_err * DT
      else st1.yaw_err_integrator
    let yc1 := marchFilter st1.yaw_ctrl yaw_err
    let yc2 :=
      if sp1.throttle < 1/10 then
        saturateFilter yc1 (-LAND_SATURATION) LAND_SATURATION
      else saturateFilter yc1 (-MAX_YAW_COMPONENT) MAX_YAW_COMPONENT
    let u3 := yc2.current_output
    let new_esc : Vec4 :=
      ⟨u0 - u1 + u2 - u3, u0 + u1 - u2 - u3, u0 + u1 + u2 + u3, u0 - u1 - u2 + u3⟩
    let esc2 := headroom new_esc
    let st2 : core_state_t :=
      { st1 with
        dRoll_err := dRoll_err, dPitch_err := dPitch_err,
        yaw_err := yaw_err,
        dRoll_err_integrator := ri, dPitch_err_integrator := pInt,
        yaw_err_integrator := yi,
        roll_ctrl := rc2, pitch_ctrl := pc2, yaw_ctrl := yc2 }
    if prev = DISARMED then
      { setpoint := sp1,
        state := { st2 with control_loops := st2.control_loops + 1 },
        previous_core_mode := sp1.core_mode,
        pulses := [(1, 0), (2, 0), (3, 0), (4, 0)] }
    else
      let out : Vec4 :=
        ⟨clamp01 esc2.x0, clamp01 esc2.x1, clamp01 esc2.x2, clamp01 esc2.x3⟩
      { setpoint := sp1,
        state := { st2 with
          esc_out := out, control_u := ⟨u0, u1, u2, u3⟩,
          control_loops := st2.control_loops + 1 },
        previous_core_mode := sp1.core_mode,
        pulses := [(1, out.x0), (2, out.x1), (3, out.x2), (4, out.x3)] }

/-! ### Helper lemmas for the core -/

theorem clamp01_bounds (x : ℚ) : 0 ≤ clamp01 x ∧ clamp01 x ≤ 1 := by
  unfold clamp01
  split_ifs with h1 h2 <;> constructor <;> linarith

theorem loop_max_eq (e : Vec4) :
    max (max (max (max 0 e.x0) e.x1) e.x2) e.x3 = max 0 (esc_max e) := by
  unfold esc_max
  simp only [max_assoc]

/-! ### Arming sequence (fly.c `wait_for_arming_sequence`, lines 683-738)

The blocking function polls shared state at ~10 Hz.  One `ArmObs` is what
one poll of the loop body reads: vehicle attitude, kill switch, throttle
stick, and the process lifecycle flag. -/

/-- One polled observation of the shared state. -/
structure ArmObs where
  roll : ℚ
  pitch : ℚ
  kill_switch : ℤ
  throttle_stick : ℚ
  exiting : Bool
deriving DecidableEq

/-- fly.c lines 687-688 and 714-715: the vehicle is tipped past the arming
threshold. -/
def tipped (o : ArmObs) : Prop :=
  ARM_TIP_THRESHOLD < |o.roll| ∨ ARM_TIP_THRESHOLD < |o.pitch|

instance tipped_dec (o : ArmObs) : Decidable (tipped o) := by
  unfold tipped
  exact inferInstance

/-- Control points of `wait_for_arming_sequence`: one state per waiting
`while` loop, plus the final level check, plus the two exits. -/
inductive ArmState where
  | waitLevel
  | waitKill
  | waitThrDown1
  | waitThrUp
  | waitThrDown2
  | finalCheck
  | armed
  | aborted
deriving DecidableEq

/-- One poll of `wait_for_arming_sequence` (fly.c lines 683-718).  Each
waiting loop advances when its exit condition holds at the observed poll and
otherwise stays (aborting if the lifecycle reads `EXITING`); the final
attitude check at lines 714-718 is the `goto START` restart. -/
def arm_step : ArmState → ArmObs → ArmState
  | .waitLevel, o =>
    if tipped o then (if o.exiting then .aborted else .waitLevel) else .waitKill
  | .waitKill, o =>
    if o.kill_switch ≠ 0 then (if o.exiting then .aborted else .waitKill)
    else .waitThrDown1
  | .waitThrDown1, o =>
    if o.throttle_stick > -(9/10) then
      (if o.exiting then .aborted else .waitThrDown1)
    else .waitThrUp
  | .waitThrUp, o =>
    if o.throttle_stick < 9/10 then (if o.exiting then .aborted else .waitThrUp)
    else .waitThrDown2
  | .waitThrDown2, o =>
    if o.throttle_stick > -(9/10) then
      (if o.exiting then .aborted else .waitThrDown2)
    else .finalCheck
  | .finalCheck, o => if tipped o then .waitLevel else .armed
  | .armed, _ => .armed
  | .aborted, _ => .aborted

/-- Run the arming sequence over a trace of polled observations. -/
def runArm (s : ArmState) (tr : List ArmObs) : ArmState :=
  tr.foldl arm_step s

/-- The six conditions the claim lists, as predicates on one observation. -/
def levelCond (o : ArmObs) : Prop := ¬ tipped o

/-- Kill switch released. -/
def killOffCond (o : ArmObs) : Prop := o.kill_switch = 0

/-- Throttle stick at or below -0.9 (exit of `while(throttle_stick > -0.9)`). -/
def thrDownCond (o : ArmObs) : Prop := o.throttle_stick ≤ -(9/10)

/-- Throttle stick at or above +0.9 (exit of `while(throttle_stick < .9)`). -/
def thrUpCond (o : ArmObs) : Prop := (9/10 : ℚ) ≤ o.throttle_stick

/-- The ordered observations a successful arming run must contain. -/
def armConds : List (ArmObs → Prop) :=
  [levelCond, killOffCond, thrDownCond, thrUpCond, thrDownCond, levelCond]

/-- The conditions still to be observed from each control point. -/
def conds : ArmState → List (ArmObs → Prop)
  | .waitLevel => armConds
  | .waitKill => [killOffCond, thrDownCond, thrUpCond, thrDownCond, levelCond]
  | .waitThrDown1 => [thrDownCond, thrUpCond, thrDownCond, levelCond]
  | .waitThrUp => [thrUpCond, thrDownCond, levelCond]
  | .waitThrDown2 => [thrDownCond, levelCond]
  | .finalCheck => [levelCond]
  | .armed => []
  | .aborted => []

/-- The trace contains observations satisfying the given predicates, in
order (as a not-necessarily-contiguous subsequence). -/
inductive InOrder : List (ArmObs → Prop) → List ArmObs → Prop where
  | nil (tr : List ArmObs) : InOrder [] tr
  | consSkip (p : ArmObs → Prop) (ps : List (ArmObs → Prop)) (o : ArmObs)
      (tr : List ArmObs) : InOrder (p :: ps) tr → InOrder (p :: ps) (o :: tr)
  | consHit (p : ArmObs → Prop) (ps : List (ArmObs → Prop)) (o : ArmObs)
      (tr : List ArmObs) : p o → InOrder ps tr → InOrder (p :: ps) (o :: tr)

theorem InOrder_skip_obs (ps : List (ArmObs → Prop)) (o : ArmObs)
    (tr : List ArmObs) (h : InOrder ps tr) : InOrder ps (o :: tr) := by
  cases ps with
  | nil => exact InOrder.nil _
  | cons p ps => exact InOrder.consSkip p ps o tr h

theorem InOrder_tail_aux : ∀ {qs : List (ArmObs → Prop)} {tr : List ArmObs},
    InOrder qs tr → ∀ {p : ArmObs → Prop} {ps : List (ArmObs → Prop)},
    qs = p :: ps → InOrder ps tr := by
  intro qs tr h
  induction h with
  | nil tr => intro p ps hq; exact absurd hq (by simp)
  | consSkip q qs' o tr h' ih =>
    intro p ps hq
    exact InOrder_skip_obs _ _ _ (ih hq)
  | consHit q qs' o tr hp h' ih =>
    intro p ps hq
    injection hq with h1 h2
    subst h2
    exact InOrder_skip_obs _ _ _ h'

theorem InOrder_tail {p : ArmObs → Prop} {ps : List (ArmObs → Prop)}
    {tr : List ArmObs} (h : InOrder (p :: ps) tr) : InOrder ps tr :=
  InOrder_tail_aux h rfl

theorem runArm_cons (s : ArmState) (o : ArmObs) (tr : List ArmObs) :
    runArm s (o :: tr) = runArm (arm_step s o) tr := rfl

theorem runArm_aborted (tr : List ArmObs) :
    runArm .aborted tr = .aborted := by
  induction tr with
  | nil => rfl
  | cons o tr ih => exact ih

/-- Any trace that drives `wait_for_arming_sequence` from the given control
point to success contains, in order, the observations still required from
that point. -/
theorem arm_trace_ordered : ∀ (tr : List ArmObs) (s : ArmState),
    runArm s tr = .armed → InOrder (conds s) tr := by
  intro tr
  induction tr with
  | nil =>
    intro s h
    have hs : s = .armed := h
    subst hs
    exact InOrder.nil _
  | cons o tr ih =>
    intro s h
    rw [runArm_cons] at h
    cases s with
    | armed => exact InOrder.nil _
    | aborted => exact InOrder.nil _
    | waitLevel =>
      by_cases hc : tipped o
      · cases ho : o.exiting with
        | true =>
          have hstep : arm_step .waitLevel o = .aborted := by
            simp [arm_step, hc, ho]
          rw [hstep, runArm_aborted] at h
          simp at h
        | false =>
          have hstep : arm_step .waitLevel o = .waitLevel := by
            simp [arm_step, hc, ho]
          rw [hstep] at h
          exact InOrder_skip_obs _ _ _ (ih _ h)
      · have hstep : arm_step .waitLevel o = .waitKill := by
          simp [arm_step, hc]
        rw [hstep] at h
        exact InOrder.consHit _ _ _ _ hc (ih _ h)
    | waitKill =>
      by_cases hc : o.kill_switch ≠ 0
      · cases ho : o.exiting with
        | true =>
          have hstep : arm_step .waitKill o = .aborted := by
            simp [arm_step, hc, ho]
          rw [hstep, runArm_aborted] at h
          simp at h
        | false =>
          have hstep : arm_step .waitKill o = .waitKill := by
            simp [arm_step, hc, ho]
          rw [hstep] at h
          exact InOrder_skip_obs _ _ _ (ih _ h)
      · have hstep : arm_step .waitKill o = .waitThrDown1 := by
          simp [arm_step, hc]
        rw [hstep] at h
        exact InOrder.consHit _ _ _ _ (not_not.mp hc) (ih _ h)
    | waitThrDown1 =>
      by_cases hc : o.throttle_stick > -(9/10)
      · cases ho : o.exiting with
        | true =>
          have hstep : arm_step .waitThrDown1 o = .aborted := by
            simp [arm_step, hc, ho]
          rw [hstep, runArm_aborted] at h
          simp at h
        | false =>
          have hstep : arm_step .waitThrDown1 o = .waitThrDown1 := by
            simp [arm_step, hc, ho]
          rw [hstep] at h
          exact InOrder_skip_obs _ _ _ (ih _ h)
      · have hstep : arm_step .waitThrDown1 o = .waitThrUp := by
          simp [arm_step, hc]
        rw [hstep] at h
        exact InOrder.consHit _ _ _ _ (not_lt.mp hc) (ih _ h)
    | waitThrUp =>
      by_cases hc : o.throttle_stick < 9/10
      · cases ho : o.exiting with
        | true =>
          have hstep : arm_step .waitThrUp o = .aborted := by
            simp [arm_step, hc, ho]
          rw [hstep, runArm_aborted] at h
          simp at h
        | false =>
          have hstep : arm_step .waitThrUp o = .waitThrUp := by
            simp [arm_step, hc, ho]
          rw [hstep] at h
          exact InOrder_skip_obs _ _ _ (ih _ h)
      · have hstep : arm_step .waitThrUp o = .waitThrDown2 := by
          simp [arm_step, hc]
        rw [hstep] at h
        exact InOrder.consHit _ _ _ _ (not_lt.mp hc) (ih _ h)
    | waitThrDown2 =>
      by_cases hc : o.throttle_stick > -(9/10)
      · cases ho : o.exiting with
        | true =>
          have hstep : arm_step .waitThrDown2 o = .aborted := by
            simp [arm_step, hc, ho]
          rw [hstep, runArm_aborted] at h
          simp at h
        | false =>
          have hstep : arm_step .waitThrDown2 o = .waitThrDown2 := by
            simp [arm_step, hc, ho]
          rw [hstep] at h
          exact InOrder_skip_obs _ _ _ (ih _ h)
      · have hstep : arm_step .waitThrDown2 o = .finalCheck := by
          simp [arm_step, hc]
        rw [hstep] at h
        exact InOrder.consHit _ _ _ _ (not_lt.mp hc) (ih _ h)
    | finalCheck =>
      by_cases hc : tipped o
      · have hstep : arm_step .finalCheck o = .waitLevel := by
          simp [arm_step, hc]
        rw [hstep] at h
        have h6 := ih _ h
        exact InOrder_skip_obs _ _ _
          (InOrder_tail (InOrder_tail (InOrder_tail (InOrder_tail (InOrder_tail h6)))))
      · exact InOrder.consHit _ _ _ _ hc (InOrder.nil tr)

/-! ### Post-success actions of the arming sequence (fly.c lines 720-737) -/

/-- The three PID controllers as (re)built by `initialize_filters`
(fly.c lines 270-295): `generatePID` from the config gains with tau = 0.015
and timestep DT, then zeroed. -/
structure CoreFilters where
  roll_ctrl : discrete_filter
  pitch_ctrl : discrete_filter
  yaw_ctrl : discrete_filter
deriving DecidableEq

/-- fly.c `initialize_filters` (lines 270-295). -/
def init_filters (cfg : core_config_t) : CoreFilters :=
  { roll_ctrl := zeroFilter (generatePID cfg.Droll_KP cfg.Droll_KI cfg.Droll_KD (15/1000) DT),
    pitch_ctrl := zeroFilter (generatePID cfg.Dpitch_KP cfg.Dpitch_KI cfg.Dpitch_KD (15/1000) DT),
    yaw_ctrl := zeroFilter (generatePID cfg.yaw_KP cfg.yaw_KI cfg.yaw_KD (15/1000) DT) }

/-- fly.c lines 722-728: ten rounds of minimum (zero) pulses on channels
1 to 4 to wake the ESCs past their calibration window. -/
def arming_success_pulses : List (ℕ × ℚ) :=
  (List.replicate 10 [(1, (0:ℚ)), (2, 0), (3, 0), (4, 0)]).flatten

/-- What a successful exit of `wait_for_arming_sequence` does (fly.c lines
720-737): pulses sent, filters reinitialized from the (re-loaded) config,
and the core mode commanded. -/
structure ArmingSuccess where
  pulses : List (ℕ × ℚ)
  filters : CoreFilters
  core_mode : core_mode_t

/-- fly.c lines 720-737. -/
def arming_success (cfg : core_config_t) : ArmingSuccess :=
  { pulses := arming_success_pulses,
    filters := init_filters cfg,
    core_mode := ATTITUDE }

/-! ### Radio watcher (fly.c `DSM2_watcher`, lines 837-918) -/

/-- One decoded DSM2 frame: the six normalized channels. -/
structure Dsm2Frame where
  ch1 : ℚ
  ch2 : ℚ
  ch3 : ℚ
  ch4 : ℚ
  ch5 : ℚ
  ch6 : ℚ
deriving DecidableEq

/-- One iteration of the watcher loop sees either a fresh frame or no new
data with a given elapsed time (seconds) since the last frame. -/
inductive Dsm2Event where
  | newFrame (f : Dsm2Frame)
  | noData (elapsed : ℚ)

/-- The state the watcher reads and writes: the latching `using_dsm2` flag,
the user interface record, and the core mode (through `disarm()`). -/
structure WatcherState where
  using_dsm2 : Bool
  ui : user_interface_t
  core_mode : core_mode_t
deriving DecidableEq

/-- fly.c lines 848-913: one iteration of the `DSM2_watcher` loop body. -/
def dsm2_step (s : WatcherState) : Dsm2Event → WatcherState
  | .newFrame f =>
    let s1 : WatcherState := { s with using_dsm2 := true }
    if f.ch5 < 0 then
      { s1 with ui := { s1.ui with kill_switch := 1 }, core_mode := DISARMED }
    else
      { s1 with ui := { s1.ui with
          kill_switch := 0,
          throttle_stick := f.ch1,
          roll_stick := -f.ch2,
          pitch_stick := -f.ch3,
          yaw_stick := f.ch4,
          flight_mode := if f.ch6 > 0 then USER_ATTITUDE else USER_ATTITUDE } }
  | .noData elapsed =>
    if s.using_dsm2 then
      if ¬(s.core_mode = DISARMED) ∧ elapsed > DSM2_DISARM_TIMEOUT then
        { s with core_mode := DISARMED }
      else if ¬(s.ui.flight_mode = EMERGENCY_LAND) ∧ elapsed > DSM2_LAND_TIMEOUT then
        { s with ui := { s.ui with
            flight_mode := EMERGENCY_LAND,
            throttle_stick := -1, roll_stick := 0,
            pitch_stick := 0, yaw_stick := 0 } }
      else s
    else s

/-! ### Concrete fixtures for witnesses and counterexamples -/

/-- A cleared PID filter with unit proportional gain. -/
def f0 : discrete_filter := generatePID 1 0 0 (15/1000) DT

/-- A plain configuration: pure P = 1 controllers, idle throttle 0.1,
cascade gain 4 (spec 8, scenario values). -/
def cfg0 : core_config_t :=
  { Droll_KP := 1, Droll_KI := 0, Droll_KD := 0,
    Dpitch_KP := 1, Dpitch_KI := 0, Dpitch_KD := 0,
    yaw_KP := 1, yaw_KI := 0, yaw_KD := 0,
    idle_speed := 1/10,
    max_roll_setpoint := 4/10, max_pitch_setpoint := 4/10,
    max_yaw_rate := 3,
    roll_rate_per_rad := 4, pitch_rate_per_rad := 4 }

/-- A core state at rest: everything zero, cleared filters. -/
def st0 : core_state_t :=
  { control_loops := 0, roll := 0, pitch := 0, yaw := 0, last_yaw := 0,
    dRoll := 0, dPitch := 0, dYaw := 0,
    dRoll_err := 0, dPitch_err := 0, yaw_err := 0,
    roll_ctrl := f0, pitch_ctrl := f0, yaw_ctrl := f0,
    dRoll_err_integrator := 0, dPitch_err_integrator := 0,
    yaw_err_integrator := 0,
    imu_roll_err := 0, imu_pitch_err := 0,
    control_u := Vec4.zero, esc_out := Vec4.zero,
    num_yaw_spins := 0, imu_yaw_on_takeoff := 0 }

/-- An IMU sample reading all zeros. -/
def m0 : MpuSample :=
  { fusedEuler_X := 0, fusedEuler_Y := 0, fusedEuler_Z := 0,
    rawGyro_X := 0, rawGyro_Y := 0, rawGyro_Z := 0 }

/-- A disarmed setpoint. -/
def spD : core_setpoint_t :=
  { core_mode := DISARMED, throttle := 0, roll := 0, pitch := 0,
    yaw_rate := 0, altitude := 0, position_X := 0, position_Y := 0, yaw := 0 }

/-- An armed attitude setpoint at half throttle (spec 8, scenario 1). -/
def spA : core_setpoint_t :=
  { core_mode := ATTITUDE, throttle := 1/2, roll := 0, pitch := 0,
    yaw_rate := 0, altitude := 0, position_X := 0, position_Y := 0, yaw := 0 }

/-- A user interface record flying in `USER_ATTITUDE` with centred sticks. -/
def ui0 : user_interface_t :=
  { flight_mode := USER_ATTITUDE, throttle_stick := 0, yaw_stick := 0,
    roll_stick := 0, pitch_stick := 0, kill_switch := 0 }

/-! ### Claim theorems -/

theorem le_esc_max_x0 (e : Vec4) : e.x0 ≤ esc_max e := by
  unfold esc_max
  exact le_trans (le_max_left _ _) (le_max_left _ _)

theorem le_esc_max_x1 (e : Vec4) : e.x1 ≤ esc_max e := by
  unfold esc_max
  exact le_trans (le_max_right _ _) (le_max_left _ _)

theorem le_esc_max_x2 (e : Vec4) : e.x2 ≤ esc_max e := by
  unfold esc_max
  exact le_trans (le_max_left _ _) (le_max_right _ _)

theorem le_esc_max_x3 (e : Vec4) : e.x3 ≤ esc_max e := by
  unfold esc_max
  exact le_trans (le_max_right _ _) (le_max_right _ _)

/-- C3: in the headroom-preservation step, if the maximum mixed output
exceeds 1 the excess is subtracted from all four channels, leaving a maximum
of exactly 1; pairwise differences are always preserved; and a vector whose
maximum does not exceed 1 passes through unchanged. -/
theorem C3_headroom (e : Vec4) :
    (1 < esc_max e →
      headroom e = ⟨e.x0 - (esc_max e - 1), e.x1 - (esc_max e - 1),
                    e.x2 - (esc_max e - 1), e.x3 - (esc_max e - 1)⟩ ∧
      esc_max (headroom e) = 1) ∧
    (esc_max e ≤ 1 → headroom e = e) ∧
    ((headroom e).x0 - (headroom e).x1 = e.x0 - e.x1 ∧
     (headroom e).x0 - (headroom e).x2 = e.x0 - e.x2 ∧
     (headroom e).x0 - (headroom e).x3 = e.x0 - e.x3 ∧
     (headroom e).x1 - (headroom e).x2 = e.x1 - e.x2 ∧
     (headroom e).x1 - (headroom e).x3 = e.x1 - e.x3 ∧
     (headroom e).x2 - (headroom e).x3 = e.x2 - e.x3) := by
  have hle := loop_max_eq e
  by_cases h1 : 1 < esc_max e
  · have hmax : max 0 (esc_max e) = esc_max e :=
      max_eq_right (zero_le_one.trans (le_of_lt h1))
    have hh : headroom e = ⟨e.x0 - (esc_max e - 1), e.x1 - (esc_max e - 1),
        e.x2 - (esc_max e - 1), e.x3 - (esc_max e - 1)⟩ := by
      simp only [headroom]
      rw [hle, hmax, if_pos h1]
    refine ⟨fun _ => ⟨hh, ?_⟩, fun h2 => absurd h1 (not_lt.mpr h2), ?_⟩
    · rw [hh]
      simp only [esc_max, max_sub_sub_right]
      ring
    · rw [hh]
      refine ⟨?_, ?_, ?_, ?_, ?_, ?_⟩ <;> · dsimp only; ring
  · have h2 : esc_max e ≤ 1 := not_lt.mp h1
    have hh : headroom e = e := by
      simp only [headroom]
      rw [hle, if_neg (not_lt.mpr (max_le zero_le_one h2))]
    exact ⟨fun hcon => absurd hcon h1, fun _ => hh,
      by rw [hh]; exact ⟨rfl, rfl, rfl, rfl, rfl, rfl⟩⟩

theorem C3_witness :
    headroom ⟨(7:ℚ)/10, 9/10, 11/10, 9/10⟩ = ⟨(6:ℚ)/10, 8/10, 1, 8/10⟩ ∧
    esc_max (headroom ⟨(7:ℚ)/10, 9/10, 11/10, 9/10⟩) = 1 := by
  have h := (C3_headroom ⟨(7:ℚ)/10, 9/10, 11/10, 9/10⟩).1 (by norm_num [esc_max, max_def])
  constructor
  · rw [h.1]
    norm_num [esc_max, max_def]
  · exact h.2

/-- C10: the uniform-subtraction correction applies only to upper
saturation.  If no mixed output exceeds 1 the headroom step is the identity;
each negative entry is then clamped to 0 individually by the output clamp
with no offset added to other channels; and a concrete vector shows pairwise
differences are not preserved under lower saturation. -/
theorem C10_lower_saturation :
    (∀ e : Vec4, esc_max e ≤ 1 → headroom e = e) ∧
    (∀ e : Vec4, esc_max e ≤ 1 →
      clamp01 (headroom e).x0 = (if e.x0 < 0 then 0 else e.x0) ∧
      clamp01 (headroom e).x1 = (if e.x1 < 0 then 0 else e.x1) ∧
      clamp01 (headroom e).x2 = (if e.x2 < 0 then 0 else e.x2) ∧
      clamp01 (headroom e).x3 = (if e.x3 < 0 then 0 else e.x3)) ∧
    (esc_max ⟨-(1:ℚ)/2, 1/2, 0, 0⟩ ≤ 1 ∧
     (⟨-(1:ℚ)/2, 1/2, 0, 0⟩ : Vec4).x0 < 0 ∧
     ¬(clamp01 (headroom ⟨-(1:ℚ)/2, 1/2, 0, 0⟩).x0 -
         clamp01 (headroom ⟨-(1:ℚ)/2, 1/2, 0, 0⟩).x1 =
       (⟨-(1:ℚ)/2, 1/2, 0, 0⟩ : Vec4).x0 - (⟨-(1:ℚ)/2, 1/2, 0, 0⟩ : Vec4).x1)) := by
  have hid : ∀ e : Vec4, esc_max e ≤ 1 → headroom e = e := by
    intro e h2
    have hle := loop_max_eq e
    simp only [headroom]
    rw [hle, if_neg (not_lt.mpr (max_le zero_le_one h2))]
  have hcl : ∀ x : ℚ, x ≤ 1 → clamp01 x = (if x < 0 then 0 else x) := by
    intro x hx
    unfold clamp01
    rw [if_neg (not_lt.mpr hx)]
  refine ⟨hid, fun e h2 => ?_, ?_, ?_, ?_⟩
  · rw [hid e h2]
    exact ⟨hcl _ ((le_esc_max_x0 e).trans h2), hcl _ ((le_esc_max_x1 e).trans h2),
           hcl _ ((le_esc_max_x2 e).trans h2), hcl _ ((le_esc_max_x3 e).trans h2)⟩
  · norm_num [esc_max, max_def]
  · norm_num
  · norm_num [headroom, clamp01, max_def]

theorem C10_witness :
    headroom ⟨-(1:ℚ)/2, 1/2, 0, 0⟩ = ⟨-(1:ℚ)/2, 1/2, 0, 0⟩ ∧
    clamp01 (headroom ⟨-(1:ℚ)/2, 1/2, 0, 0⟩).x0 = 0 := by
  have h2 : esc_max ⟨-(1:ℚ)/2, 1/2, 0, 0⟩ ≤ 1 := by norm_num [esc_max, max_def]
  refine ⟨C10_lower_saturation.1 _ h2, ?_⟩
  rw [(C10_lower_saturation.2.1 _ h2).1]
  norm_num

/-- C5 (amended): the yaw-unwrap step computes
`new_yaw = -(fused_z - yaw_on_takeoff) + 2 pi num_spins`, decrements the
spin count when `new_yaw - last_yaw > 6`, increments it when `< -6`, and
recomputes yaw with the updated count; for two successive fused-yaw readings
3.10 rad then -3.10 rad from steady state with zero spins the reported
unwrapped yaw changes by approximately -0.08 rad (the reported yaw negates
the fused yaw) rather than +6.20 rad. -/
theorem C5_amended :
    (∀ (t ly f : ℚ) (s : ℤ),
      (-(f - t) + (s : ℚ) * (2 * PI) - ly > 6 →
        yaw_unwrap t s ly f = (s - 1, -(f - t) + ((s : ℚ) - 1) * (2 * PI))) ∧
      (-(f - t) + (s : ℚ) * (2 * PI) - ly < -6 →
        yaw_unwrap t s ly f = (s + 1, -(f - t) + ((s : ℚ) + 1) * (2 * PI))) ∧
      (¬(-(f - t) + (s : ℚ) * (2 * PI) - ly > 6) →
       ¬(-(f - t) + (s : ℚ) * (2 * PI) - ly < -6) →
        yaw_unwrap t s ly f = (s, -(f - t) + (s : ℚ) * (2 * PI)))) ∧
    ((yaw_unwrap (31/10) 0 0 (-(31/10))).1 = -1 ∧
     -(9/100) < (yaw_unwrap (31/10) 0 0 (-(31/10))).2 - 0 ∧
     (yaw_unwrap (31/10) 0 0 (-(31/10))).2 - 0 < -(8/100)) := by
  constructor
  · intro t ly f s
    refine ⟨fun h => ?_, fun h => ?_, fun h h' => ?_⟩
    · simp only [yaw_unwrap, if_pos h, Prod.mk.injEq]
      refine ⟨trivial, ?_⟩
      push_cast
      ring
    · have hn : ¬(-(f - t) + (s : ℚ) * (2 * PI) - ly > 6) := by linarith
      simp only [yaw_unwrap, if_neg hn, if_pos h, Prod.mk.injEq]
      refine ⟨trivial, ?_⟩
      push_cast
      ring
    · simp only [yaw_unwrap, if_neg h, if_neg h', Prod.mk.injEq]
  · refine ⟨?_, ?_, ?_⟩ <;> norm_num [yaw_unwrap, PI]

theorem C5_counterexample :
    (yaw_unwrap (31/10) 0 0 (-(31/10))).2 - 0 < 0 ∧
    -(9/100) < (yaw_unwrap (31/10) 0 0 (-(31/10))).2 - 0 := by
  constructor <;> norm_num [yaw_unwrap, PI]

theorem C5_witness :
    yaw_unwrap (31/10) 0 0 (-(31/10)) =
      ((0:ℤ) - 1, -((-(31/10) : ℚ) - 31/10) + (((0:ℤ) : ℚ) - 1) * (2 * PI)) :=
  (C5_amended.1 (31/10) 0 (-(31/10)) 0).1 (by norm_num [PI])

/-- C1 (amended): a control cycle with setpoint mode `DISARMED` zeroes the
three error integrators and the roll and pitch PID filter states (the yaw
filter is left untouched), sets `setpoint.yaw` to 0, clears `esc_out`,
records `DISARMED` as the previous mode, and returns without commanding any
PWM pulse. -/
theorem C1_amended (rcos : ℚ → ℚ) (cfg : core_config_t) (sp : core_setpoint_t)
    (st : core_state_t) (prev : core_mode_t) (m : MpuSample)
    (h : sp.core_mode = DISARMED) :
    (flight_core rcos cfg sp st prev m).state.dRoll_err_integrator = 0 ∧
    (flight_core rcos cfg sp st prev m).state.dPitch_err_integrator = 0 ∧
    (flight_core rcos cfg sp st prev m).state.yaw_err_integrator = 0 ∧
    filterStateZero (flight_core rcos cfg sp st prev m).state.roll_ctrl ∧
    filterStateZero (flight_core rcos cfg sp st prev m).state.pitch_ctrl ∧
    (flight_core rcos cfg sp st prev m).state.yaw_ctrl = st.yaw_ctrl ∧
    (flight_core rcos cfg sp st prev m).setpoint.yaw = 0 ∧
    (flight_core rcos cfg sp st prev m).state.esc_out = Vec4.zero ∧
    (flight_core rcos cfg sp st prev m).previous_core_mode = DISARMED ∧
    (flight_core rcos cfg sp st prev m).pulses = [] := by
  simp [flight_core, h, filterStateZero, zeroFilter]

theorem C1_witness :
    filterStateZero (flight_core (fun _ => 1) cfg0 spD st0 DISARMED m0).state.roll_ctrl ∧
    (flight_core (fun _ => 1) cfg0 spD st0 DISARMED m0).state.esc_out = Vec4.zero ∧
    (flight_core (fun _ => 1) cfg0 spD st0 DISARMED m0).pulses = [] := by
  have h := C1_amended (fun _ => 1) cfg0 spD st0 DISARMED m0 (by simp [spD])
  exact ⟨h.2.2.2.1, h.2.2.2.2.2.2.2.1, h.2.2.2.2.2.2.2.2.2⟩

/-- A disarmed core state whose yaw controller still holds a nonzero
output (reachable: the disarmed branch never zeroes `yaw_ctrl`). -/
def stC1 : core_state_t := { st0 with yaw_ctrl := { f0 with current_output := 1 } }

theorem C1_counterexample :
    spD.core_mode = DISARMED ∧
    (flight_core (fun _ => 1) cfg0 spD stC1 DISARMED m0).state.esc_out = Vec4.zero ∧
    (flight_core (fun _ => 1) cfg0 spD stC1 DISARMED m0).state.yaw_ctrl.current_output = 1 ∧
    ¬ filterStateZero (flight_core (fun _ => 1) cfg0 spD stC1 DISARMED m0).state.yaw_ctrl := by
  refine ⟨rfl, ?_, ?_, ?_⟩ <;>
    norm_num [flight_core, spD, stC1, st0, f0, generatePID, filterStateZero]

/-- C2: on an armed cycle every normalized pulse the core emits lies in
[0,1], and every `esc_out` entry it records lies in [0,1]. -/
theorem C2_esc_range (rcos : ℚ → ℚ) (cfg : core_config_t) (sp : core_setpoint_t)
    (st : core_state_t) (prev : core_mode_t) (m : MpuSample)
    (h : ¬ sp.core_mode = DISARMED) :
    (∀ p ∈ (flight_core rcos cfg sp st prev m).pulses, 0 ≤ p.2 ∧ p.2 ≤ 1) ∧
    (¬ prev = DISARMED →
      (0 ≤ (flight_core rcos cfg sp st prev m).state.esc_out.x0 ∧
        (flight_core rcos cfg sp st prev m).state.esc_out.x0 ≤ 1) ∧
      (0 ≤ (flight_core rcos cfg sp st prev m).state.esc_out.x1 ∧
        (flight_core rcos cfg sp st prev m).state.esc_out.x1 ≤ 1) ∧
      (0 ≤ (flight_core rcos cfg sp st prev m).state.esc_out.x2 ∧
        (flight_core rcos cfg sp st prev m).state.esc_out.x2 ≤ 1) ∧
      (0 ≤ (flight_core rcos cfg sp st prev m).state.esc_out.x3 ∧
        (flight_core rcos cfg sp st prev m).state.esc_out.x3 ≤ 1)) := by
  by_cases hp : prev = DISARMED
  · refine ⟨?_, fun hq => absurd hp hq⟩
    intro p hmem
    simp [flight_core, h, hp] at hmem
    rcases hmem with rfl | rfl | rfl | rfl <;> norm_num
  · constructor
    · intro p hmem
      simp [flight_core, h, hp] at hmem
      rcases hmem with rfl | rfl | rfl | rfl <;> exact clamp01_bounds _
    · intro _
      refine ⟨?_, ?_, ?_, ?_⟩ <;> · simp [flight_core, h, hp]; exact clamp01_bounds _

theorem C2_witness :
    0 ≤ (flight_core (fun _ => 1) cfg0 spA st0 ATTITUDE m0).state.esc_out.x0 ∧
    (flight_core (fun _ => 1) cfg0 spA st0 ATTITUDE m0).state.esc_out.x0 ≤ 1 :=
  ((C2_esc_range (fun _ => 1) cfg0 spA st0 ATTITUDE m0
    (by simp [spA])).2 (by simp)).1

/-- C4 (amended): on an armed cycle the three error integrators are left
unchanged whenever the tilt-compensated throttle channel `u[0]` does not
exceed `INT_CUTOFF_TH` (the gate the code actually tests). -/
theorem C4_amended (rcos : ℚ → ℚ) (cfg : core_config_t) (sp : core_setpoint_t)
    (st : core_state_t) (prev : core_mode_t) (m : MpuSample)
    (h : ¬ sp.core_mode = DISARMED)
    (hu : u0_of rcos cfg.idle_speed sp.throttle (sensed_roll st m)
      (sensed_pitch st m) ≤ INT_CUTOFF_TH) :
    (flight_core rcos cfg sp st prev m).state.dRoll_err_integrator
      = st.dRoll_err_integrator ∧
    (flight_core rcos cfg sp st prev m).state.dPitch_err_integrator
      = st.dPitch_err_integrator ∧
    (flight_core rcos cfg sp st prev m).state.yaw_err_integrator
      = st.yaw_err_integrator := by
  have hn : ¬ u0_of rcos cfg.idle_speed sp.throttle (sensed_roll st m)
      (sensed_pitch st m) > INT_CUTOFF_TH := not_lt.mpr hu
  by_cases hm : sp.core_mode = ATTITUDE ∧ sp.throttle > YAW_CUTOFF_TH <;>
    by_cases hp : prev = DISARMED <;>
    simp [flight_core, h, hm, hp, hn]

theorem C4_witness :
    (flight_core (fun _ => 1) cfg0
        { spA with throttle := 0 } st0 ATTITUDE m0).state.dRoll_err_integrator
      = st0.dRoll_err_integrator ∧
    (flight_core (fun _ => 1) cfg0
        { spA with throttle := 0 } st0 ATTITUDE m0).state.yaw_err_integrator
      = st0.yaw_err_integrator := by
  have h := C4_amended (fun _ => 1) cfg0 { spA with throttle := 0 } st0 ATTITUDE m0
    (by simp [spA])
    (by norm_num [u0_of, sensed_roll, sensed_pitch, spA, st0, m0, cfg0,
      INT_CUTOFF_TH, MAX_THRUST_COMPONENT])
  exact ⟨h.1, h.2.2⟩

/-- A configuration whose idle throttle alone pushes `u[0]` past the
integrator gate even at low stick throttle. -/
def cfgC4 : core_config_t := { cfg0 with idle_speed := 1/2, roll_rate_per_rad := 1 }

/-- An armed setpoint with throttle at the 0.3 cutoff and a roll command. -/
def spC4 : core_setpoint_t := { spA with throttle := 3/10, roll := 1 }

theorem C4_counterexample :
    spC4.throttle ≤ INT_CUTOFF_TH ∧ ¬ spC4.core_mode = DISARMED ∧
    ¬ (flight_core (fun _ => 1) cfgC4 spC4 st0 ATTITUDE m0).state.dRoll_err_integrator
        = st0.dRoll_err_integrator := by
  have hAD : ¬ ATTITUDE = DISARMED := by simp
  refine ⟨by norm_num [spC4, spA, INT_CUTOFF_TH], by simp [spC4, spA], ?_⟩
  norm_num [flight_core, u0_of, sensed_roll, sensed_pitch, spC4, spA, cfgC4,
    cfg0, st0, m0, f0, generatePID, INT_CUTOFF_TH, YAW_CUTOFF_TH,
    MAX_THRUST_COMPONENT, DT, GYRO_SCALE, GYRO_FSR, DEGREE_TO_RAD, PI,
    yaw_unwrap, hAD]

/-- C8 (amended): on the first armed cycle after a disarmed-to-armed
transition the core sends a zero pulse on all four channels and leaves
`esc_out` and `control_u` unchanged; `esc_out` is all zeros (the disarmed
branch cleared it) but `control_u` merely keeps its previous, possibly
nonzero, values. -/
theorem C8_amended (rcos : ℚ → ℚ) (cfg : core_config_t) (sp : core_setpoint_t)
    (st : core_state_t) (m : MpuSample) (h : ¬ sp.core_mode = DISARMED) :
    (flight_core rcos cfg sp st DISARMED m).pulses
      = [(1, 0), (2, 0), (3, 0), (4, 0)] ∧
    (flight_core rcos cfg sp st DISARMED m).state.esc_out = st.esc_out ∧
    (flight_core rcos cfg sp st DISARMED m).state.control_u = st.control_u := by
  simp [flight_core, h]

/-- A core state as left by a disarmed cycle that followed armed flight:
`esc_out` cleared but `control_u` still holding the last armed outputs. -/
def stC8 : core_state_t := { st0 with control_u := ⟨45/100, 0, 0, 0⟩ }

theorem C8_counterexample :
    ¬ spA.core_mode = DISARMED ∧
    (flight_core (fun _ => 1) cfg0 spA stC8 DISARMED m0).pulses
      = [(1, 0), (2, 0), (3, 0), (4, 0)] ∧
    (flight_core (fun _ => 1) cfg0 spA stC8 DISARMED m0).state.control_u
      = stC8.control_u ∧
    ¬ (flight_core (fun _ => 1) cfg0 spA stC8 DISARMED m0).state.control_u
      = Vec4.zero ∧
    u0_of (fun _ => (1:ℚ)) cfg0.idle_speed spA.throttle (sensed_roll stC8 m0)
      (sensed_pitch stC8 m0) = 45/100 := by
  have hAD : ¬ ATTITUDE = DISARMED := by simp
  refine ⟨by simp [spA], ?_, ?_, ?_, ?_⟩ <;>
    norm_num [flight_core, spA, stC8, st0, cfg0, m0, u0_of, sensed_roll,
      sensed_pitch, Vec4.zero, MAX_THRUST_COMPONENT, YAW_CUTOFF_TH, hAD]

theorem C8_witness :
    (flight_core (fun _ => 1) cfg0 spA st0 DISARMED m0).pulses
      = [(1, 0), (2, 0), (3, 0), (4, 0)] ∧
    (flight_core (fun _ => 1) cfg0 spA st0 DISARMED m0).state.esc_out
      = st0.esc_out :=
  ⟨(C8_amended (fun _ => 1) cfg0 spA st0 m0 (by simp [spA])).1,
   (C8_amended (fun _ => 1) cfg0 spA st0 m0 (by simp [spA])).2.1⟩

/-- C6 (amended): the arming sequence succeeds only after observing, in
order: vehicle level, kill switch released, throttle below -0.9, above
+0.9, below -0.9 again, and still level at the final check; a tip-over
observed at the final check restarts the sequence from its first state (a
transient tip-over while waiting on the kill-switch or throttle conditions
is not observed and does not restart it); on success the stack sends ten
rounds of minimum pulses, reinitializes the PID filters from the reloaded
config, and sets the core mode to `ATTITUDE`. -/
theorem C6_amended :
    (∀ tr : List ArmObs, runArm .waitLevel tr = .armed → InOrder armConds tr) ∧
    (∀ o : ArmObs, tipped o → arm_step .finalCheck o = .waitLevel) ∧
    (∀ cfg : core_config_t,
      (arming_success cfg).core_mode = ATTITUDE ∧
      (arming_success cfg).pulses.length = 40 ∧
      (∀ p ∈ (arming_success cfg).pulses, p.2 = 0) ∧
      filterStateZero (arming_success cfg).filters.roll_ctrl ∧
      filterStateZero (arming_success cfg).filters.pitch_ctrl ∧
      filterStateZero (arming_success cfg).filters.yaw_ctrl) := by
  refine ⟨fun tr h => arm_trace_ordered tr .waitLevel h,
    fun o ho => by simp [arm_step, ho],
    fun cfg => ⟨rfl, by rfl, ?_, ?_, ?_, ?_⟩⟩
  · intro p hp
    simp only [arming_success, arming_success_pulses, List.mem_flatten] at hp
    obtain ⟨l, hl, hpl⟩ := hp
    rw [List.eq_of_mem_replicate hl] at hpl
    simp only [List.mem_cons, List.not_mem_nil, or_false] at hpl
    rcases hpl with rfl | rfl | rfl | rfl <;> rfl
  · simp [arming_success, init_filters, zeroFilter, generatePID, filterStateZero]
  · simp [arming_success, init_filters, zeroFilter, generatePID, filterStateZero]
  · simp [arming_success, init_filters, zeroFilter, generatePID, filterStateZero]

/-- A level observation with kill switch off and centred throttle. -/
def oGood : ArmObs := ⟨0, 0, 0, 0, false⟩

/-- Throttle stick held fully down. -/
def oThrD : ArmObs := ⟨0, 0, 0, -1, false⟩

/-- Throttle stick held fully up. -/
def oThrU : ArmObs := ⟨0, 0, 0, 1, false⟩

/-- A tipped-over observation (roll 1 rad) with centred throttle. -/
def oTip : ArmObs := ⟨1, 0, 0, 0, false⟩

theorem C6_counterexample :
    runArm .waitLevel [oGood, oGood, oThrD, oTip, oThrU, oThrD, oGood]
      = .armed ∧
    tipped oTip := by
  constructor
  · norm_num [runArm, arm_step, tipped, oGood, oThrD, oTip, oThrU,
      ARM_TIP_THRESHOLD, List.foldl]
  · norm_num [tipped, oTip, ARM_TIP_THRESHOLD]

theorem C6_witness :
    InOrder armConds [oGood, oGood, oThrD, oThrU, oThrD, oGood] ∧
    arm_step .finalCheck oTip = .waitLevel ∧
    (arming_success cfg0).core_mode = ATTITUDE := by
  refine ⟨C6_amended.1 _ ?_, C6_amended.2.1 oTip ?_, (C6_amended.2.2 cfg0).1⟩
  · norm_num [runArm, arm_step, tipped, oGood, oThrD, oThrU,
      ARM_TIP_THRESHOLD, List.foldl]
  · norm_num [tipped, oTip, ARM_TIP_THRESHOLD]

/-- C7 (amended): on a no-data watcher run after the first frame, if more
than `DSM2_LAND_TIMEOUT` has elapsed, the flight mode is not already
`EMERGENCY_LAND`, and the 5-second armed disarm branch does not fire first,
the watcher transitions the flight mode to `EMERGENCY_LAND`, forcing the
throttle stick to -1 and the other sticks to 0, leaving the core mode
alone; once the flight mode is `EMERGENCY_LAND` further no-data runs leave
the user interface unchanged (the transition happens exactly once); if more
than `DSM2_DISARM_TIMEOUT` has elapsed while armed the watcher disarms
without touching the user interface; and with a run observed between the
two timeouts before one past the disarm timeout, `EMERGENCY_LAND` is
entered before the later disarm. -/
theorem C7_amended :
    (∀ (s : WatcherState) (e : ℚ), s.using_dsm2 = true →
      ¬(¬(s.core_mode = DISARMED) ∧ e > DSM2_DISARM_TIMEOUT) →
      e > DSM2_LAND_TIMEOUT → ¬(s.ui.flight_mode = EMERGENCY_LAND) →
      (dsm2_step s (.noData e)).ui.flight_mode = EMERGENCY_LAND ∧
      (dsm2_step s (.noData e)).ui.throttle_stick = -1 ∧
      (dsm2_step s (.noData e)).ui.roll_stick = 0 ∧
      (dsm2_step s (.noData e)).ui.pitch_stick = 0 ∧
      (dsm2_step s (.noData e)).ui.yaw_stick = 0 ∧
      (dsm2_step s (.noData e)).core_mode = s.core_mode) ∧
    (∀ (s : WatcherState) (e : ℚ), s.using_dsm2 = true →
      ¬(s.core_mode = DISARMED) → e > DSM2_DISARM_TIMEOUT →
      (dsm2_step s (.noData e)).core_mode = DISARMED ∧
      (dsm2_step s (.noData e)).ui = s.ui) ∧
    (∀ (s : WatcherState) (e : ℚ), s.ui.flight_mode = EMERGENCY_LAND →
      (dsm2_step s (.noData e)).ui = s.ui) ∧
    (∀ (s : WatcherState) (e1 e2 : ℚ), s.using_dsm2 = true →
      ¬(s.core_mode = DISARMED) → ¬(s.ui.flight_mode = EMERGENCY_LAND) →
      DSM2_LAND_TIMEOUT < e1 → e1 ≤ DSM2_DISARM_TIMEOUT →
      DSM2_DISARM_TIMEOUT < e2 →
      (dsm2_step s (.noData e1)).ui.flight_mode = EMERGENCY_LAND ∧
      (dsm2_step s (.noData e1)).ui.throttle_stick = -1 ∧
      (dsm2_step s (.noData e1)).core_mode = s.core_mode ∧
      (dsm2_step (dsm2_step s (.noData e1)) (.noData e2)).core_mode
        = DISARMED ∧
      (dsm2_step (dsm2_step s (.noData e1)) (.noData e2)).ui
        = (dsm2_step s (.noData e1)).ui) := by
  refine ⟨?_, ?_, ?_, ?_⟩
  · intro s e hu hnd hl hm
    simp [dsm2_step, hu, hnd, hl, hm]
  · intro s e hu ha hd
    simp [dsm2_step, hu, ha, hd]
  · intro s e hm
    by_cases hu : s.using_dsm2 = true
    · by_cases hd : ¬(s.core_mode = DISARMED) ∧ e > DSM2_DISARM_TIMEOUT
      · simp [dsm2_step, hu, hd]
      · simp [dsm2_step, hu, hd, hm]
    · simp [dsm2_step, hu]
  · intro s e1 e2 hu ha hm he1 he1le he2
    have hne1 : ¬(DSM2_DISARM_TIMEOUT < e1) := not_lt.mpr he1le
    simp [dsm2_step, hu, ha, hm, he1, he2, hne1]

/-- A watcher state after the first frame, flying `USER_ATTITUDE`, armed. -/
def w0 : WatcherState := { using_dsm2 := true, ui := ui0, core_mode := ATTITUDE }

theorem C7_counterexample :
    w0.using_dsm2 = true ∧ ¬(w0.ui.flight_mode = EMERGENCY_LAND) ∧
    (6:ℚ) > DSM2_LAND_TIMEOUT ∧
    (dsm2_step w0 (.noData 6)).core_mode = DISARMED ∧
    (dsm2_step w0 (.noData 6)).ui.flight_mode = USER_ATTITUDE ∧
    ¬((dsm2_step w0 (.noData 6)).ui.flight_mode = EMERGENCY_LAND) := by
  refine ⟨rfl, by simp [w0, ui0], by norm_num [DSM2_LAND_TIMEOUT], ?_, ?_, ?_⟩ <;>
    norm_num [dsm2_step, w0, ui0, DSM2_LAND_TIMEOUT, DSM2_DISARM_TIMEOUT,
      (by simp : ¬ USER_ATTITUDE = EMERGENCY_LAND),
      (by simp : ¬ ATTITUDE = DISARMED)]

theorem C7_witness :
    (dsm2_step w0 (.noData 1)).ui.flight_mode = EMERGENCY_LAND ∧
    (dsm2_step w0 (.noData 1)).ui.throttle_stick = -1 ∧
    (dsm2_step w0 (.noData 1)).core_mode = w0.core_mode ∧
    (dsm2_step (dsm2_step w0 (.noData 1)) (.noData 6)).core_mode = DISARMED := by
  have h4 := C7_amended.2.2.2 w0 1 6 rfl (by simp [w0]) (by simp [w0, ui0])
    (by norm_num [DSM2_LAND_TIMEOUT]) (by norm_num [DSM2_DISARM_TIMEOUT])
    (by norm_num [DSM2_DISARM_TIMEOUT])
  exact ⟨h4.1, h4.2.1, h4.2.2.1, h4.2.2.2.1⟩

/-- C9: a freshly received frame with channel 5 negative sets the kill
switch, disarms, and leaves the four stick fields and the flight mode
unchanged; channels 1-4 and 6 are decoded only when channel 5 is
nonnegative, in which case the sticks take the decoded values, the flight
mode becomes `USER_ATTITUDE`, and the core mode is untouched. -/
theorem C9_kill_switch_frame (s : WatcherState) (f : Dsm2Frame) :
    (f.ch5 < 0 →
      (dsm2_step s (.newFrame f)).ui.kill_switch = 1 ∧
      (dsm2_step s (.newFrame f)).core_mode = DISARMED ∧
      (dsm2_step s (.newFrame f)).ui.throttle_stick = s.ui.throttle_stick ∧
      (dsm2_step s (.newFrame f)).ui.roll_stick = s.ui.roll_stick ∧
      (dsm2_step s (.newFrame f)).ui.pitch_stick = s.ui.pitch_stick ∧
      (dsm2_step s (.newFrame f)).ui.yaw_stick = s.ui.yaw_stick ∧
      (dsm2_step s (.newFrame f)).ui.flight_mode = s.ui.flight_mode) ∧
    (0 ≤ f.ch5 →
      (dsm2_step s (.newFrame f)).ui.kill_switch = 0 ∧
      (dsm2_step s (.newFrame f)).ui.throttle_stick = f.ch1 ∧
      (dsm2_step s (.newFrame f)).ui.roll_stick = -f.ch2 ∧
      (dsm2_step s (.newFrame f)).ui.pitch_stick = -f.ch3 ∧
      (dsm2_step s (.newFrame f)).ui.yaw_stick = f.ch4 ∧
      (dsm2_step s (.newFrame f)).ui.flight_mode = USER_ATTITUDE ∧
      (dsm2_step s (.newFrame f)).core_mode = s.core_mode) := by
  constructor
  · intro h5
    simp [dsm2_step, h5]
  · intro h5
    simp [dsm2_step, not_lt.mpr h5]

/-- A frame with the kill switch channel pulled negative. -/
def frKill : Dsm2Frame := ⟨0, 0, 0, 0, -1, 0⟩

/-- A normal frame: kill channel up, half throttle, some roll. -/
def frOk : Dsm2Frame := ⟨1/2, 1/4, 0, 0, 1, 1⟩

theorem C9_witness :
    (dsm2_step w0 (.newFrame frKill)).ui.kill_switch = 1 ∧
    (dsm2_step w0 (.newFrame frKill)).core_mode = DISARMED ∧
    (dsm2_step w0 (.newFrame frKill)).ui.flight_mode = w0.ui.flight_mode ∧
    (dsm2_step w0 (.newFrame frOk)).ui.throttle_stick = frOk.ch1 ∧
    (dsm2_step w0 (.newFrame frOk)).ui.flight_mode = USER_ATTITUDE := by
  have h1 := (C9_kill_switch_frame w0 frKill).1 (by norm_num [frKill])
  have h2 := (C9_kill_switch_frame w0 frOk).2 (by norm_num [frOk])
  exact ⟨h1.1, h1.2.1, h1.2.2.2.2.2.2, h2.2.1, h2.2.2.2.2.2.1⟩
